import Mathlib

/-!
Verification of the tuon-live-transcribe realtime transcription gateway.

The program is a WebSocket gateway (src/app/api/ws/transcriptions/route.ts,
with a custom-server variant in src/unnamed/part_000 and the OpenAI helper
library mintEphemeralToken / openOpenAIRealtime in src/unnamed/part_002).
Per accepted client connection the gateway keeps mutable per-session data
directly on the socket object (`client.upstream`, `client.isAlive`) and
reacts to events: client text/binary messages, pong, close, error; upstream
message, close, error; the completion of the asynchronous `start` setup
(token minting followed by upstream open); and the periodic heartbeat sweep.

We embed this event-driven code as an explicit state machine: `Session` is
the per-connection mutable data, `Ev` the inbound events, and `stepS` the
reaction of the handlers in route.ts to one event, returning the updated
session together with the list of externally visible actions (messages sent
to the client, messages sent upstream, close / terminate / ping calls).
`openOpenAIRealtime` of src/unnamed/part_002 is embedded separately as a
run over transport events, and the listener-registration order of the
`ready` acknowledgment is embedded by an explicit event-emitter model.
-/

namespace TuonTranscribe

/-- WebSocket readyState values (the `ws` package constants CONNECTING /
OPEN / CLOSING / CLOSED used in route.ts via `WebSocket.OPEN`). -/
inductive ReadyState
  | CONNECTING
  | OPEN
  | CLOSING
  | CLOSED
  deriving DecidableEq, Repr

/-- `isOpenRS r` is the test `readyState === WebSocket.OPEN` of route.ts. -/
def isOpenRS : ReadyState → Bool
  | .OPEN => true
  | _ => false

/-- One upstream OpenAI realtime socket as seen from route.ts: an identity
(so that distinct sockets created by distinct `start` setups can be told
apart) and its transport readyState. -/
structure UpstreamConn where
  id : Nat
  readyState : ReadyState
  deriving DecidableEq, Repr

/-- The JSON messages route.ts sends to the browser client, one constructor
per `client.send(JSON.stringify(...))` shape:
`{type:"connected",...}` (line 35), `{ready:true}` (line 72),
`{type:"partial",text,item_id}` (82-86), `{type:"final",text,item_id}`
(88-92), `{error:<code>,detail?}` (50, 97-100, 122, 130), and the verbatim
forward of an upstream payload (103, 107). A JS field that is `undefined`
is embedded as `none`. -/
inductive ClientMsg
  | connected
  | ready
  | partialEvt (text : Option String) (itemId : Option String)
  | finalEvt (text : Option String) (itemId : Option String)
  | errorEvt (code : String) (detail : Option String)
  | verbatim (raw : String)
  deriving DecidableEq, Repr

/-- The transcription-session configuration object built in
openOpenAIRealtime (src/unnamed/part_002 lines 56-74). The numeric VAD
parameters are embedded as exact integers; `thresholdHundredths = 50`
stands for the literal `threshold: 0.5`. -/
structure TranscriptionConfig where
  updateType : String
  inputAudioFormat : String
  model : String
  language : String
  turnDetectionType : String
  thresholdHundredths : Nat
  prefixPaddingMs : Nat
  silenceDurationMs : Nat
  noiseReductionType : String
  deriving DecidableEq, Repr

/-- The literal configuration message of src/unnamed/part_002 lines 56-74:
pcm16 input, transcription model "gpt-4o-transcribe", language "en",
server-side VAD, near-field noise reduction. It is a constant of the
library: `openOpenAIRealtime` receives only the token, no session
parameters. -/
def realtimeSessionConfig : TranscriptionConfig :=
  { updateType := "transcription_session.update"
    inputAudioFormat := "pcm16"
    model := "gpt-4o-transcribe"
    language := "en"
    turnDetectionType := "server_vad"
    thresholdHundredths := 50
    prefixPaddingMs := 300
    silenceDurationMs := 500
    noiseReductionType := "near_field" }

/-- The JSON messages the gateway sends to the upstream OpenAI socket:
the one-off session configuration (sent inside openOpenAIRealtime) and
`{type:"input_audio_buffer.append", audio:<base64>}` per binary frame
(route.ts lines 139-144). `audioSource` is the inbound frame's payload;
route.ts base64-encodes it into the JSON `audio` field, an injective
re-encoding that no claim inspects. -/
inductive UpstreamMsg
  | sessionUpdate (cfg : TranscriptionConfig)
  | appendAudio (audioSource : String)
  deriving DecidableEq, Repr

/-- Parse outcome of one upstream payload `data` in the
`upstream.on('message')` handler (route.ts lines 75-108): either
`JSON.parse(data.toString())` succeeds, giving an object whose `type`,
`delta`, `transcript`, `item_id` and `error.message` fields are embedded
(absent fields as `none`) together with the raw text `data.toString()`,
or the parse throws, leaving only the raw text. -/
inductive UpData
  | jsonEvt (ty : String) (delta : Option String) (transcript : Option String)
      (itemId : Option String) (errMessage : Option String) (raw : String)
  | nonJson (raw : String)
  deriving DecidableEq, Repr

/-- JavaScript `a || b` on an optional string field: an absent
(`undefined`) or empty string is falsy and yields `b`. -/
def orFalsy (a : Option String) (b : String) : String :=
  match a with
  | some s => if s = "" then b else s
  | none => b

/-- The upstream-message translation of route.ts lines 75-108 (identical in
src/unnamed/part_000 lines 86-118): a transcription delta becomes one
`partial` event, a transcription completion one `final` event, a buffer
commit is only logged, an upstream `error` becomes
`{error:"openai_error", detail: error.message || "Unknown error"}`, every
other JSON payload and every non-JSON payload is forwarded verbatim. -/
def translateUpstream : UpData → List ClientMsg
  | .jsonEvt ty delta transcript itemId errMessage raw =>
    if ty = "conversation.item.input_audio_transcription.delta" then
      [.partialEvt delta itemId]
    else if ty = "conversation.item.input_audio_transcription.completed" then
      [.finalEvt transcript itemId]
    else if ty = "input_audio_buffer.committed" then
      []
    else if ty = "error" then
      [.errorEvt "openai_error" (some (orFalsy errMessage "Unknown error"))]
    else
      [.verbatim raw]
  | .nonJson raw => [.verbatim raw]

/-- Parse outcome of one inbound client text message in the
`client.on('message')` handler (route.ts lines 42-135): a JSON object with
`action == "start"` carrying the optional `lang` and `model` fields, any
other successfully parsed JSON (no branch matches it), or text on which
`JSON.parse` throws (the catch at line 133 logs and drops it). -/
inductive ClientText
  | startCmd (lang : Option String) (model : Option String)
  | otherJson
  | invalidJson (raw : String)
  deriving DecidableEq, Repr

/-- The events one session reacts to. `setupOk u` / `setupFail msg` are the
resumptions of the asynchronous `start` setup of route.ts lines 58-131:
`setupOk u` is `await openOpenAIRealtime` resolving with socket `u` (which
at that point is already open and configured, since the library resolves
inside its own open handler), `setupFail msg` is either `await` rejecting,
caught at line 128. `sweep` is one tick of the heartbeat interval
(lines 165-175). -/
inductive Ev
  | clientText (t : ClientText)
  | clientBinary (audioSource : String)
  | clientPong
  | clientClose
  | clientError
  | setupOk (u : UpstreamConn)
  | setupFail (msg : String)
  | upMessage (d : UpData)
  | upClose
  | upError (msg : String)
  | sweep
  deriving DecidableEq, Repr

/-- The externally visible actions a handler performs: `client.send`,
`client.upstream.send`, `client.close()`, `client.upstream.close()`,
`client.terminate()`, `client.ping()`. -/
inductive Act
  | sendClient (m : ClientMsg)
  | sendUpstream (m : UpstreamMsg)
  | closeClient
  | closeUpstream
  | terminateClient
  | pingClient
  deriving DecidableEq, Repr

/-- The mutable per-connection data route.ts keeps on the socket object
(interface CustomWebSocket, lines 8-11) plus the transport state needed by
the handlers' guards: `upstream` is `client.upstream`, `isAlive` is
`client.isAlive`, `clientReady` is `client.readyState`, and `inFlight`
counts the `start` setups currently suspended at
`await mintEphemeralToken` / `await openOpenAIRealtime`
(route.ts lines 61 and 66). -/
structure Session where
  upstream : Option UpstreamConn
  isAlive : Bool
  clientReady : ReadyState
  inFlight : Nat
  deriving DecidableEq, Repr

/-- The session right after the connection handler's synchronous prefix
(route.ts lines 29-39): no upstream, `isAlive = true` (line 32), client
socket open, no setup in flight. -/
def initSession : Session :=
  { upstream := none, isAlive := true, clientReady := .OPEN, inFlight := 0 }

/-- The guard `client.upstream && client.upstream.readyState ===
WebSocket.OPEN` used at route.ts lines 48, 138, 151 and 158. -/
def upstreamIsOpen (s : Session) : Bool :=
  match s.upstream with
  | some u => isOpenRS u.readyState
  | none => false

/-- One event-handler reaction of route.ts, returning the updated session
and the performed actions, handler by handler:

* `clientText (startCmd ..)` (lines 47-56): if an upstream is open, send
  `{error:"upstream_already_started"}` and return unchanged; otherwise the
  handler computes `lang`/`model` (used only for logging and token
  minting) and suspends at `await mintEphemeralToken` — embedded as
  `inFlight + 1`, with the outcome delivered later as `setupOk`/`setupFail`.
* `clientText otherJson` / `clientText (invalidJson _)` (no matching
  branch / catch at line 133): logged, no state change, no action.
* `clientBinary` (lines 136-146): forward one
  `input_audio_buffer.append` iff an upstream is open, else drop.
* `clientPong` (lines 37-39): set `isAlive := true`.
* `clientClose` / `clientError` (lines 149-161): close the upstream iff
  it is open; the close event marks the client socket closed.
* `setupOk u` (lines 66-126): the awaited setup resumes, assigns
  `client.upstream = u` (overwriting any previous reference) and attaches
  the upstream handlers; it performs no send — the config was already sent
  inside openOpenAIRealtime before its promise resolved, and the `ready`
  open-listener of line 70 is attached after the socket's only `open`
  emission (see `successfulSetupSim` below), so it never fires.
* `setupFail msg` (lines 128-131): send
  `{error:"upstream_setup_failed", detail: msg}`, nothing else changes.
* `upMessage d` (lines 75-109): send the translation to the client.
* `upClose` (lines 111-117): close the client iff it is still open, then
  clear `client.upstream`.
* `upError msg` (lines 119-126): if the client is still open, send
  `{error:"openai_connection_failed", detail: msg}` and close it; then
  clear `client.upstream`.
* `sweep` (lines 165-175): terminate when `isAlive === false`, otherwise
  clear the flag and ping. -/
def stepS (s : Session) : Ev → Session × List Act
  | .clientText (.startCmd _lang _model) =>
    if upstreamIsOpen s then
      (s, [.sendClient (.errorEvt "upstream_already_started" none)])
    else
      ({ s with inFlight := s.inFlight + 1 }, [])
  | .clientText .otherJson => (s, [])
  | .clientText (.invalidJson _) => (s, [])
  | .clientBinary audioSource =>
    if upstreamIsOpen s then
      (s, [.sendUpstream (.appendAudio audioSource)])
    else
      (s, [])
  | .clientPong => ({ s with isAlive := true }, [])
  | .clientClose =>
    ({ s with clientReady := .CLOSED },
      if upstreamIsOpen s then [.closeUpstream] else [])
  | .clientError =>
    (s, if upstreamIsOpen s then [.closeUpstream] else [])
  | .setupOk u =>
    ({ s with upstream := some u, inFlight := s.inFlight - 1 }, [])
  | .setupFail msg =>
    ({ s with inFlight := s.inFlight - 1 },
      [.sendClient (.errorEvt "upstream_setup_failed" (some msg))])
  | .upMessage d => (s, (translateUpstream d).map Act.sendClient)
  | .upClose =>
    if isOpenRS s.clientReady then
      ({ s with upstream := none, clientReady := .CLOSING }, [.closeClient])
    else
      ({ s with upstream := none }, [])
  | .upError msg =>
    if isOpenRS s.clientReady then
      ({ s with upstream := none, clientReady := .CLOSING },
        [.sendClient (.errorEvt "openai_connection_failed" (some msg)),
          .closeClient])
    else
      ({ s with upstream := none }, [])
  | .sweep =>
    if s.isAlive then
      ({ s with isAlive := false }, [.pingClient])
    else
      ({ s with clientReady := .CLOSED }, [.terminateClient])

/-- Run a session over a list of events, concatenating the actions. -/
def runSession (s : Session) : List Ev → Session × List Act
  | [] => (s, [])
  | e :: rest =>
    let r1 := stepS s e
    let r2 := runSession r1.1 rest
    (r2.1, r1.2 ++ r2.2)

/-- The messages sent to the client among a list of actions. -/
def clientSends (acts : List Act) : List ClientMsg :=
  acts.filterMap fun a =>
    match a with
    | .sendClient m => some m
    | _ => none

/-- The messages sent upstream among a list of actions. -/
def upstreamSends (acts : List Act) : List UpstreamMsg :=
  acts.filterMap fun a =>
    match a with
    | .sendUpstream m => some m
    | _ => none

/-! ### The OpenAI helper library, src/unnamed/part_002 -/

/-- Transport-level events the upstream socket can emit towards the
listeners registered inside `openOpenAIRealtime`. -/
inductive SockEvent
  | opened
  | errored (msg : String)
  | closedEvt (code : Nat)
  deriving DecidableEq, Repr

/-- The observable steps of openOpenAIRealtime's own handlers
(src/unnamed/part_002 lines 51-88): transmitting the configuration
message, resolving the returned promise, rejecting it. -/
inductive LibAct
  | sendConfig
  | resolveOpen
  | rejectOpen (msg : String)
  deriving DecidableEq, Repr

/-- The handlers of openOpenAIRealtime run over the socket's event
sequence: the `open` handler (lines 51-79) sends the configuration message
and then calls `resolve(ws)`; the `error` handler (lines 81-84) calls
`reject(err)`; the `close` handler (lines 86-88) only logs. -/
def openRealtimeRun : List SockEvent → List LibAct
  | [] => []
  | .opened :: rest => .sendConfig :: .resolveOpen :: openRealtimeRun rest
  | .errored m :: rest => .rejectOpen m :: openRealtimeRun rest
  | .closedEvt _ :: rest => openRealtimeRun rest

/-- JavaScript promise settlement: the first `resolve` or `reject` in the
action list wins, later ones are no-ops. `inl` is resolution, `inr msg`
rejection. -/
def settleOf : List LibAct → Option (Unit ⊕ String)
  | [] => none
  | .sendConfig :: rest => settleOf rest
  | .resolveOpen :: _ => some (.inl ())
  | .rejectOpen m :: _ => some (.inr m)

/-- `lang` extraction of route.ts line 54: `msg.lang || 'en'`. The value
is only ever logged. -/
def resolveLang (msgLang : Option String) : String :=
  orFalsy msgLang "en"

/-- `model` extraction of route.ts line 55:
`msg.model || process.env.MODEL_NAME || 'gpt-4o-transcribe'`. -/
def resolveModel (msgModel envModel : Option String) : String :=
  orFalsy msgModel (orFalsy envModel "gpt-4o-transcribe")

/-- The token-minting HTTP request of mintEphemeralToken
(src/unnamed/part_002 lines 6-35): a POST to the realtime-sessions
endpoint whose JSON body carries `model: model || 'gpt-4o-transcribe'`.
This request is the only place the session's `model` value is used. -/
structure MintRequest where
  url : String
  method : String
  bodyModel : String
  deriving DecidableEq, Repr

/-- The request built by `mintEphemeralToken model`. -/
def mintRequest (model : String) : MintRequest :=
  { url := "https://api.openai.com/v1/realtime/sessions"
    method := "POST"
    bodyModel := orFalsy (some model) "gpt-4o-transcribe" }

/-! ### Listener registration order for the `open` event

`openOpenAIRealtime` registers its own `open` listener when it creates the
socket and calls `resolve(ws)` from inside that listener
(src/unnamed/part_002 lines 51-79). The `ws` emitter invokes the listeners
registered at emission time and emits `open` exactly once; the `await` in
route.ts line 66 therefore resumes strictly after that single emission,
and the `upstream.on('open', ...)` of route.ts line 70 — the only place
that sends `{ready:true}` — attaches its listener to an emitter whose
`open` event is already in the past. We embed the emitter to make this
ordering checkable. -/

/-- The two `open` listeners ever attached to one upstream socket:
the library's (send config, resolve the promise) and the route's
(send `{ready:true}` to the client). -/
inductive OpenListener
  | libConfigResolve
  | routeSendReady
  deriving DecidableEq, Repr

/-- Emitter state for the `open` event of one upstream socket, together
with the effects its listeners can produce. -/
structure SocketSim where
  listeners : List OpenListener
  openEmitted : Bool
  configSent : Bool
  promiseSettled : Bool
  readySent : Bool
  deriving DecidableEq, Repr

/-- A freshly constructed upstream socket: no listeners, nothing
emitted. -/
def initSock : SocketSim :=
  { listeners := [], openEmitted := false, configSent := false
    promiseSettled := false, readySent := false }

/-- `socket.on('open', l)`: appends the listener, invoking nothing —
the `ws` emitter does not replay past emissions to late listeners. -/
def attachOpenListener (l : OpenListener) (s : SocketSim) : SocketSim :=
  { s with listeners := s.listeners ++ [l] }

/-- Effect of invoking one `open` listener. -/
def runOpenListener (s : SocketSim) : OpenListener → SocketSim
  | .libConfigResolve => { s with configSent := true, promiseSettled := true }
  | .routeSendReady => { s with readySent := true }

/-- `emit('open')`: invokes the listeners registered at this moment. -/
def emitOpen (s : SocketSim) : SocketSim :=
  { s.listeners.foldl runOpenListener s with openEmitted := true }

/-- The successful-setup script, in execution order: the library attaches
its `open` listener at socket creation (part_002 line 51), the transport
emits `open` once (sending the config and settling the promise), and only
then does the awaiting continuation of route.ts line 66 resume and attach
the `ready` listener (route.ts line 70). No further `open` is ever
emitted. -/
def successfulSetupSim : SocketSim :=
  attachOpenListener .routeSendReady
    (emitOpen (attachOpenListener .libConfigResolve initSock))

/-! ### Helper lemmas -/

/-- `clientSends` distributes over concatenation. -/
theorem clientSends_append (a b : List Act) :
    clientSends (a ++ b) = clientSends a ++ clientSends b := by
  simp [clientSends, List.filterMap_append]

/-- Projecting the client sends out of a pure send-to-client action list. -/
theorem clientSends_map_sendClient (l : List ClientMsg) :
    clientSends (l.map Act.sendClient) = l := by
  induction l with
  | nil => rfl
  | cons m rest ih =>
    simp only [List.map_cons, clientSends, List.filterMap_cons] at *
    simpa using ih

/-- The translator never produces the `{ready:true}` event: its outputs are
partial, final, openai_error or verbatim messages only. -/
theorem ready_notin_translate (d : UpData) :
    ClientMsg.ready ∉ translateUpstream d := by
  cases d with
  | jsonEvt ty delta transcript itemId errMessage raw =>
    simp only [translateUpstream]
    split_ifs <;> simp
  | nonJson raw => simp [translateUpstream]

/-- No single handler reaction ever sends `{ready:true}` to the client. -/
theorem ready_count_step (s : Session) (e : Ev) :
    (clientSends (stepS s e).2).count ClientMsg.ready = 0 := by
  rw [List.count_eq_zero]
  cases e with
  | clientText t =>
    cases t with
    | startCmd lang model =>
      simp only [stepS]; split_ifs <;> simp [clientSends]
    | otherJson => simp [stepS, clientSends]
    | invalidJson raw => simp [stepS, clientSends]
  | clientBinary a => simp only [stepS]; split_ifs <;> simp [clientSends]
  | clientPong => simp [stepS, clientSends]
  | clientClose => simp only [stepS]; split_ifs <;> simp [clientSends]
  | clientError => simp only [stepS]; split_ifs <;> simp [clientSends]
  | setupOk u => simp [stepS, clientSends]
  | setupFail m => simp [stepS, clientSends]
  | upMessage d =>
    simp only [stepS, clientSends_map_sendClient]
    exact ready_notin_translate d
  | upClose => simp only [stepS]; split_ifs <;> simp [clientSends]
  | upError m => simp only [stepS]; split_ifs <;> simp [clientSends]
  | sweep => simp only [stepS]; split_ifs <;> simp [clientSends]

/-- A concrete session owning one open upstream socket. -/
def sessionWithOpenUpstream : Session :=
  { upstream := some { id := 1, readyState := .OPEN }, isAlive := true
    clientReady := .OPEN, inFlight := 0 }

/-! ### Claims -/

/-- Claim C1, counterexample. The claim asserts that a concurrent second
`start` arriving while the session is suspended in token-minting or
upstream-opening is answered with `upstream_already_started`. It is not:
in the trace where a first `start` suspends at `await mintEphemeralToken`
(route.ts line 61) and a second `start` arrives before the setup resumes,
`client.upstream` is still unset, so the guard of line 48 passes — the
whole trace produces no client message at all and the second `start`
begins a second concurrent setup (two setups in flight). -/
theorem secondStartDuringSetupNotRejected :
    (runSession initSession
      [.clientText (.startCmd none none), .clientText (.startCmd none none)]).2 = []
    ∧ (runSession initSession
      [.clientText (.startCmd none none), .clientText (.startCmd none none)]).1.inFlight
        = 2 := by
  exact ⟨rfl, rfl⟩

/-- Claim C1, amended: a second `start` received while an upstream is open
is answered with `{error:"upstream_already_started"}` and changes nothing
(session state unchanged, no other action, existing upstream untouched);
but a `start` received while no open upstream is referenced — in
particular a concurrent second `start` during the suspended token-minting
or upstream-opening of an earlier `start` — is not rejected and begins a
further setup. -/
theorem startGuardBehavior (s : Session) (lang model : Option String) :
    (upstreamIsOpen s = true →
      stepS s (.clientText (.startCmd lang model)) =
        (s, [.sendClient (.errorEvt "upstream_already_started" none)]))
    ∧ (upstreamIsOpen s = false →
      stepS s (.clientText (.startCmd lang model)) =
        ({ s with inFlight := s.inFlight + 1 }, [])) := by
  constructor <;> intro h <;> simp [stepS, h]

/-- Witness for `startGuardBehavior` at concrete sessions: one with an
open upstream (rejected without state change), one idle (setup begun). -/
theorem startGuardBehavior_witness :
    stepS sessionWithOpenUpstream (.clientText (.startCmd none none)) =
      (sessionWithOpenUpstream,
        [.sendClient (.errorEvt "upstream_already_started" none)])
    ∧ stepS initSession (.clientText (.startCmd none none)) =
      ({ initSession with inFlight := 1 }, []) :=
  ⟨(startGuardBehavior sessionWithOpenUpstream none none).1 rfl,
    (startGuardBehavior initSession none none).2 rfl⟩

/-- Claim C2. The code never delivers the `{ready:true}` acknowledgment:
`openOpenAIRealtime` resolves its promise from inside the socket's single
`open` emission, so the `upstream.on('open')` listener of route.ts line 70
— the only send of `{ready:true}` — is attached after `open` already
fired and never runs. In the emitter embedding of the successful setup the
configuration is sent and the promise settles, but `ready` is not sent;
and over every event trace of the session machine, no handler ever sends
`ClientMsg.ready` to the client. -/
theorem readyNeverDelivered :
    successfulSetupSim.configSent = true
    ∧ successfulSetupSim.promiseSettled = true
    ∧ successfulSetupSim.openEmitted = true
    ∧ successfulSetupSim.readySent = false
    ∧ ∀ evs : List Ev,
        (clientSends (runSession initSession evs).2).count ClientMsg.ready = 0 := by
  refine ⟨rfl, rfl, rfl, rfl, ?_⟩
  have h : ∀ (evs : List Ev) (s : Session),
      (clientSends (runSession s evs).2).count ClientMsg.ready = 0 := by
    intro evs
    induction evs with
    | nil => intro s; rfl
    | cons e rest ih =>
      intro s
      show (clientSends
        ((stepS s e).2 ++ (runSession (stepS s e).1 rest).2)).count ClientMsg.ready = 0
      rw [clientSends_append, List.count_append, ready_count_step, ih]
  exact fun evs => h evs initSession

/-- The trace of claim C3's counterexample: a `start`, the setup resuming
with an open configured upstream, then one binary audio frame — all
before any `ready` could have been delivered to the client. -/
def preReadyTrace : List Ev :=
  [.clientText (.startCmd none none),
    .setupOk { id := 1, readyState := .OPEN },
    .clientBinary "frame0"]

/-- Claim C3, counterexample. The claim asserts that frames arriving
before the client has received `ready` are never forwarded upstream. In
the trace `preReadyTrace` the client was never sent `ready` (count 0 over
the whole trace), yet the binary frame is forwarded as an
`input_audio_buffer.append`: forwarding is guarded only by the upstream
being open (route.ts line 138), which holds as soon as the awaited setup
resumes. -/
theorem preReadyFrameForwarded :
    (clientSends (runSession initSession preReadyTrace).2).count ClientMsg.ready = 0
    ∧ Act.sendUpstream (.appendAudio "frame0")
        ∈ (runSession initSession preReadyTrace).2 := by
  exact ⟨rfl, by decide⟩

/-- Claim C3, amended: an upstream `input_audio_buffer.append` message is
produced for an inbound binary audio frame if and only if the session owns
an upstream whose readyState is open; frames arriving outside that window
are silently dropped — the session state is unchanged, nothing is queued
and nothing is forwarded. (The clause "in particular before the client has
received `ready`" does not hold: the `ready` acknowledgment is never
delivered, and frames are forwarded as soon as the upstream is open.) -/
theorem audioForwardIffUpstreamOpen (s : Session) (frame : String) :
    (upstreamIsOpen s = true →
      stepS s (.clientBinary frame) = (s, [.sendUpstream (.appendAudio frame)]))
    ∧ (upstreamIsOpen s = false →
      stepS s (.clientBinary frame) = (s, [])) := by
  constructor <;> intro h <;> simp [stepS, h]

/-- Witness for `audioForwardIffUpstreamOpen`: with an open upstream the
frame is forwarded, from the idle session it is dropped unchanged. -/
theorem audioForwardIffUpstreamOpen_witness :
    stepS sessionWithOpenUpstream (.clientBinary "a0") =
      (sessionWithOpenUpstream, [.sendUpstream (.appendAudio "a0")])
    ∧ stepS initSession (.clientBinary "a0") = (initSession, []) :=
  ⟨(audioForwardIffUpstreamOpen sessionWithOpenUpstream "a0").1 rfl,
    (audioForwardIffUpstreamOpen initSession "a0").2 rfl⟩

/-- Claim C4: the upstream-message translation is total (a total Lean
function) and matches the contract table exactly — a transcription delta
yields exactly one `partial` event, a transcription completion exactly one
`final` event, a buffer commit no client event, an upstream `error` event
`{error:"openai_error", detail}` with the `Unknown error` fallback, every
other JSON type is forwarded verbatim, and non-JSON data is forwarded
verbatim (the catch branch, so the handler does not crash). -/
theorem translatorTotal (delta transcript itemId errMessage : Option String)
    (ty raw : String) :
    translateUpstream (.jsonEvt "conversation.item.input_audio_transcription.delta"
        delta transcript itemId errMessage raw) = [.partialEvt delta itemId]
    ∧ translateUpstream (.jsonEvt "conversation.item.input_audio_transcription.completed"
        delta transcript itemId errMessage raw) = [.finalEvt transcript itemId]
    ∧ translateUpstream (.jsonEvt "input_audio_buffer.committed"
        delta transcript itemId errMessage raw) = []
    ∧ translateUpstream (.jsonEvt "error" delta transcript itemId errMessage raw)
        = [.errorEvt "openai_error" (some (orFalsy errMessage "Unknown error"))]
    ∧ (ty ≠ "conversation.item.input_audio_transcription.delta" →
        ty ≠ "conversation.item.input_audio_transcription.completed" →
        ty ≠ "input_audio_buffer.committed" →
        ty ≠ "error" →
        translateUpstream (.jsonEvt ty delta transcript itemId errMessage raw)
          = [.verbatim raw])
    ∧ translateUpstream (.nonJson raw) = [.verbatim raw] := by
  refine ⟨rfl, rfl, rfl, rfl, ?_, rfl⟩
  intro h1 h2 h3 h4
  simp [translateUpstream, h1, h2, h3, h4]

/-- Witness for `translatorTotal`: an unknown upstream type is forwarded
verbatim, and a reported error message is passed through as the detail. -/
theorem translatorTotal_witness :
    translateUpstream (.jsonEvt "session.created" none none none none "rawtext")
      = [.verbatim "rawtext"]
    ∧ translateUpstream (.jsonEvt "error" none none none (some "boom") "r2")
      = [.errorEvt "openai_error" (some "boom")] :=
  ⟨(translatorTotal none none none none "session.created" "rawtext").2.2.2.2.1
      (by decide) (by decide) (by decide) (by decide),
    (translatorTotal none none none (some "boom") "x" "r2").2.2.2.1⟩

/-- A concrete session whose client socket is already closed while an open
upstream is still referenced. -/
def sessionClientClosed : Session :=
  { upstream := some { id := 2, readyState := .OPEN }, isAlive := true
    clientReady := .CLOSED, inFlight := 0 }

/-- Claim C5: closure is symmetric and immediate. When the client closes
or errors, the very same handler reaction closes the owned upstream if one
is open (and does nothing to it otherwise); when the upstream closes or
errors, the same reaction closes the client if it is still open — on the
error path sending the terminal `{error:"openai_connection_failed"}` event
first — and clears the upstream reference in every case. -/
theorem closureSymmetric (s : Session) (m : String) :
    (upstreamIsOpen s = true →
      stepS s .clientClose = ({ s with clientReady := .CLOSED }, [.closeUpstream])
      ∧ stepS s .clientError = (s, [.closeUpstream]))
    ∧ (upstreamIsOpen s = false →
      stepS s .clientClose = ({ s with clientReady := .CLOSED }, [])
      ∧ stepS s .clientError = (s, []))
    ∧ (isOpenRS s.clientReady = true →
      stepS s .upClose =
        ({ s with upstream := none, clientReady := .CLOSING }, [.closeClient])
      ∧ stepS s (.upError m) =
        ({ s with upstream := none, clientReady := .CLOSING },
          [.sendClient (.errorEvt "openai_connection_failed" (some m)),
            .closeClient]))
    ∧ (isOpenRS s.clientReady = false →
      stepS s .upClose = ({ s with upstream := none }, [])
      ∧ stepS s (.upError m) = ({ s with upstream := none }, [])) := by
  refine ⟨?_, ?_, ?_, ?_⟩ <;> intro h <;> exact ⟨by simp [stepS, h], by simp [stepS, h]⟩

/-- Witness for `closureSymmetric` at concrete sessions: an open client
with an open upstream, the idle session, and a closed client still
referencing an upstream. -/
theorem closureSymmetric_witness :
    stepS sessionWithOpenUpstream .clientClose =
      ({ sessionWithOpenUpstream with clientReady := .CLOSED }, [.closeUpstream])
    ∧ stepS initSession .clientClose =
      ({ initSession with clientReady := .CLOSED }, [])
    ∧ stepS sessionWithOpenUpstream (.upError "reset") =
      ({ sessionWithOpenUpstream with upstream := none, clientReady := .CLOSING },
        [.sendClient (.errorEvt "openai_connection_failed" (some "reset")),
          .closeClient])
    ∧ stepS sessionClientClosed .upClose = ({ sessionClientClosed with upstream := none }, []) :=
  ⟨((closureSymmetric sessionWithOpenUpstream "reset").1 rfl).1,
    ((closureSymmetric initSession "reset").2.1 rfl).1,
    ((closureSymmetric sessionWithOpenUpstream "reset").2.2.1 rfl).2,
    ((closureSymmetric sessionClientClosed "reset").2.2.2 rfl).1⟩

/-- Claim C6: a failing `start` setup (token minting or upstream opening
rejects) sends the client exactly one
`{error:"upstream_setup_failed", detail}` event and leaves the rest of the
session as it was — in particular, when the failing setup started from a
session without an open upstream, a subsequent `start` passes the guard
again and begins a fresh setup (retry possible, no upstream retained). -/
theorem setupFailureRecoverable (s : Session) (msg : String)
    (lang model : Option String) :
    stepS s (.setupFail msg) =
      ({ s with inFlight := s.inFlight - 1 },
        [.sendClient (.errorEvt "upstream_setup_failed" (some msg))])
    ∧ (stepS s (.setupFail msg)).1.upstream = s.upstream
    ∧ (upstreamIsOpen s = false →
        stepS (stepS s (.setupFail msg)).1 (.clientText (.startCmd lang model)) =
          ({ s with inFlight := s.inFlight - 1 + 1 }, [])) := by
  refine ⟨rfl, rfl, ?_⟩
  intro h
  have h2 : upstreamIsOpen { s with inFlight := s.inFlight - 1 } = false := h
  simp [stepS, h2]

/-- Witness for `setupFailureRecoverable`: a failing first setup on the
idle session reports the error once and the retried `start` is accepted. -/
theorem setupFailureRecoverable_witness :
    stepS initSession (.setupFail "mint failed") =
      (initSession,
        [.sendClient (.errorEvt "upstream_setup_failed" (some "mint failed"))])
    ∧ stepS (stepS initSession (.setupFail "mint failed")).1
        (.clientText (.startCmd none none)) = ({ initSession with inFlight := 1 }, []) :=
  ⟨(setupFailureRecoverable initSession "mint failed" none none).1,
    (setupFailureRecoverable initSession "mint failed" none none).2.2 rfl⟩

/-- `n` repetitions of one sweep interval in which the client answers the
ping with a pong before the next sweep. -/
def pongCycle : Nat → List Ev
  | 0 => []
  | n + 1 => Ev.sweep :: Ev.clientPong :: pongCycle n

/-- Claim C7: the liveness flag is true on connect and set true by every
pong; a client that never answers is pinged (not terminated) at the first
sweep and forcibly terminated at the second, i.e. after exactly two sweep
intervals; and a client that answers every ping with a pong before the
next sweep is never terminated, over any number of sweep intervals. -/
theorem livenessMonitor :
    initSession.isAlive = true
    ∧ (∀ s : Session, stepS s .clientPong = ({ s with isAlive := true }, []))
    ∧ (runSession initSession [.sweep]).2 = [.pingClient]
    ∧ (runSession initSession [.sweep, .sweep]).2 = [.pingClient, .terminateClient]
    ∧ (∀ n : Nat,
        ((runSession initSession (pongCycle n)).2).count Act.terminateClient = 0) := by
  refine ⟨rfl, fun s => rfl, rfl, rfl, ?_⟩
  intro n
  induction n with
  | zero => rfl
  | succ k ih =>
    have hstep : (runSession initSession (pongCycle (k + 1))).2
        = Act.pingClient :: (runSession initSession (pongCycle k)).2 := rfl
    rw [hstep, List.count_cons_of_ne (by decide), ih]

/-- In the action list of `openRealtimeRun`, the promise resolution never
occurs before the configuration send: in every prefix that contains
`resolveOpen`, `sendConfig` already occurs. -/
theorem resolveAfterConfigAux :
    ∀ (evs : List SockEvent) (n : Nat),
      LibAct.resolveOpen ∈ (openRealtimeRun evs).take n →
      LibAct.sendConfig ∈ (openRealtimeRun evs).take n := by
  intro evs
  induction evs with
  | nil => intro n h; simp [openRealtimeRun] at h
  | cons e tl ih =>
    intro n h
    cases e with
    | opened =>
      match n with
      | 0 => simp at h
      | 1 => simp [openRealtimeRun] at h
      | Nat.succ (Nat.succ k) =>
        simp [openRealtimeRun, List.take]
    | errored m =>
      match n with
      | 0 => simp at h
      | Nat.succ k =>
        simp only [openRealtimeRun, List.take, List.mem_cons] at h ⊢
        rcases h with h | h
        · exact LibAct.noConfusion h
        · exact Or.inr (ih k h)
    | closedEvt c =>
      exact ih n h

/-- Claim C8: `openOpenAIRealtime` resolves only after the
session-configuration message has been transmitted: over every transport
event sequence, no prefix of the library's action list contains the
resolution without already containing the configuration send (the `open`
handler sends the configuration and only then resolves); an `open` event
settles the promise resolved; and a transport error before any open
settles the promise rejected with that error (failing the pending open). -/
theorem connectorContract (evs rest : List SockEvent) (n : Nat) (m : String) :
    (LibAct.resolveOpen ∈ (openRealtimeRun evs).take n →
      LibAct.sendConfig ∈ (openRealtimeRun evs).take n)
    ∧ settleOf (openRealtimeRun (.opened :: rest)) = some (.inl ())
    ∧ settleOf (openRealtimeRun (.errored m :: rest)) = some (.inr m) :=
  ⟨resolveAfterConfigAux evs n, rfl, rfl⟩

/-- Witness for `connectorContract`: on the one-event trace where the
transport opens, the two-action prefix contains the resolution and indeed
also the configuration send, and an immediate transport error rejects. -/
theorem connectorContract_witness :
    LibAct.sendConfig ∈ (openRealtimeRun [SockEvent.opened]).take 2
    ∧ settleOf (openRealtimeRun [SockEvent.opened]) = some (.inl ())
    ∧ settleOf (openRealtimeRun [SockEvent.errored "refused"]) = some (.inr "refused") :=
  ⟨(connectorContract [SockEvent.opened] [] 2 "refused").1 (by decide),
    (connectorContract [] [] 0 "refused").2.1,
    (connectorContract [] [] 0 "refused").2.2⟩

/-- Claim C9: a client payload that is neither a well-formed `start`
command nor binary audio — valid JSON without the `start` action, or text
on which `JSON.parse` throws — is dropped after logging: the handler (a
total function) leaves the session state unchanged and performs no action,
so nothing is forwarded upstream and nothing is sent to the client. -/
theorem malformedClientPayloadDropped (s : Session) (raw : String) :
    stepS s (.clientText .otherJson) = (s, [])
    ∧ stepS s (.clientText (.invalidJson raw)) = (s, []) :=
  ⟨rfl, rfl⟩

/-- Claim C10: the session configuration transmitted on upstream open is a
constant of the library — model `"gpt-4o-transcribe"` and language `"en"`
— independent of the `lang`/`model` of the client's `start` command: the
`start` handler reaction is literally the same function of the session for
every `lang`/`model` and sends nothing upstream itself; the resolved model
(`msg.model || MODEL_NAME || "gpt-4o-transcribe"`, JavaScript falsy
defaulting) is used only in the token-minting request body; `lang` is
extracted (`msg.lang || "en"`) but appears in no upstream message. -/
theorem configFixedRegardlessOfStart (s : Session)
    (lang model msgModel envModel msgLang : Option String) (m : String) :
    realtimeSessionConfig.model = "gpt-4o-transcribe"
    ∧ realtimeSessionConfig.language = "en"
    ∧ stepS s (.clientText (.startCmd lang model)) =
        stepS s (.clientText (.startCmd none none))
    ∧ upstreamSends (stepS s (.clientText (.startCmd lang model))).2 = []
    ∧ (mintRequest m).bodyModel = orFalsy (some m) "gpt-4o-transcribe"
    ∧ resolveModel msgModel envModel =
        orFalsy msgModel (orFalsy envModel "gpt-4o-transcribe")
    ∧ resolveLang msgLang = orFalsy msgLang "en" := by
  refine ⟨rfl, rfl, rfl, ?_, rfl, rfl, rfl⟩
  cases h : upstreamIsOpen s <;> simp only [stepS, h] <;> rfl

end TuonTranscribe
